import Mathlib

/-!
Shallow embedding of `src/builder.py` from elijahr/distcc-cross-compiler.

The program generates docker/config files across a matrix of
(distribution, host architecture, client architecture) tuples.  Python
dictionaries are modelled as insertion-ordered association lists
(`dictInsert` replaces in place, appends new keys at the end, exactly like
`dict.update` / `dict.__setitem__`), the file system as functions from
paths to contents / existence, exceptions as `Except Err`.
-/

namespace DistccCC

/-- Values stored in a template context.  In `builder.py` the context dict
holds strings, ints (ports) and `None` (a `toolchains_by_arch.get` miss). -/
inductive Value where
  | str (s : String)
  | int (n : Int)
  | vnone
deriving DecidableEq

/-- How `str.format` renders a context value: `str(x)` semantics. -/
def valueStr : Value → String
  | .str s => s
  | .int n => toString n
  | .vnone => "None"

/-- Python truthiness of a context value (`if client_arch:` etc.):
empty string, zero and `None` are falsy. -/
def truthy : Value → Bool
  | .str s => !(s == "")
  | .int n => !(n == 0)
  | .vnone => false

/-- First-match lookup in an insertion-ordered dict, `d[k]` / `d.get(k)`. -/
def lookupD {α : Type} (k : String) : List (String × α) → Option α
  | [] => none
  | (k', v) :: rest => if k' == k then some v else lookupD k rest

/-- `d[k] = v`: replace in place when `k` is present, append otherwise,
matching Python dict insertion-order semantics. -/
def dictInsert {α : Type} (k : String) (v : α) : List (String × α) → List (String × α)
  | [] => [(k, v)]
  | (k', v') :: rest => if k' == k then (k, v) :: rest else (k', v') :: dictInsert k v rest

/-- `leadsWith pre l` is true when `pre` is an initial run of `l`. -/
def leadsWith : List Char → List Char → Bool
  | [], _ => true
  | _ :: _, [] => false
  | a :: as, b :: bs => a == b && leadsWith as bs

/-- `sub` occurs contiguously somewhere in the second list. -/
def subList (sub : List Char) : List Char → Bool
  | [] => sub.isEmpty
  | c :: rest => leadsWith sub (c :: rest) || subList sub rest

/-- Substring test on strings (via their character lists). -/
def strContainsB (s sub : String) : Bool := subList sub.data s.data

def strStartsWith (s pre : String) : Bool := leadsWith pre.data s.data

def strEndsWith (s suf : String) : Bool := leadsWith suf.data.reverse s.data.reverse

/-- Python `\w` on the ASCII names used by the program. -/
def isWordChar (c : Char) : Bool := c.isAlpha || c.isDigit || c == '_'

/-- `slugify` from builder.py: `re.sub(r'[^\w]', '-', string).lower()`. -/
def slugify (s : String) : String :=
  String.mk (s.data.map fun c => if isWordChar c then c.toLower else '-')

/-- `os.path.join` (also `path.Path.__div__`) for the slash-separated
relative/absolute paths the program builds. -/
def pathJoin (a b : String) : String :=
  if strStartsWith b "/" then b
  else if a == "" then b
  else if strEndsWith a "/" then a ++ b
  else a ++ "/" ++ b

/-- Split a character list on a separator (used for path components). -/
def splitOnChar (sep : Char) : List Char → List (List Char)
  | [] => [[]]
  | c :: rest =>
    match splitOnChar sep rest with
    | [] => [[]]
    | h :: t => if c == sep then [] :: h :: t else (c :: h) :: t

/-- Join strings with a separator (`sep.join(parts)`). -/
def joinSep (sep : String) : List String → String
  | [] => ""
  | [x] => x
  | x :: y :: rest => x ++ sep ++ joinSep sep (y :: rest)

def pathParts (p : String) : List String := (splitOnChar '/' p.data).map String.mk

/-- `os.path.dirname` for slash paths. -/
def dirname (p : String) : String := joinSep "/" (pathParts p).dropLast

/-- All directories `os.makedirs p` brings into existence: every
nonempty prefix of its components, including `p` itself. -/
def dirChain (p : String) : List String :=
  (List.range (pathParts p).length).map fun n => joinSep "/" ((pathParts p).take (n + 1))

/-- The exceptions builder.py can raise in the modelled fragment. -/
inductive Err where
  | keyError (k : String)
  | valueError (msg : String)
  | fileNotFound (p : String)
  | fileExists (p : String)
  | missingPlaceholder
  | templateNotFound (p : String)
deriving DecidableEq

/-- The output file system: file contents by path and directory existence. -/
structure FS where
  files : String → Option String
  dirs : String → Bool

def emptyFS : FS := ⟨fun _ => none, fun _ => false⟩

/-- Parser state of `str.format`: scanning literal text, just after `{`,
inside a placeholder name, or just after `}`. -/
inductive PMode where
  | text
  | openB
  | inName (acc : List Char)
  | closeB

/-- `str.format(**context)` on the template text: `{name}` is replaced by
the context value, `{{`/`}}` are literal braces, an unknown name, a lone
`}` or an unterminated `{` raise (here: `none`). -/
def fmtSM (ctx : List (String × Value)) : PMode → List Char → Option (List Char)
  | .text, [] => some []
  | .openB, [] => none
  | .inName _, [] => none
  | .closeB, [] => none
  | .text, c :: rest =>
    if c == '\x7b' then fmtSM ctx .openB rest
    else if c == '\x7d' then fmtSM ctx .closeB rest
    else (fmtSM ctx .text rest).map fun t => c :: t
  | .openB, c :: rest =>
    if c == '\x7b' then (fmtSM ctx .text rest).map fun t => '\x7b' :: t
    else if c == '\x7d' then
      match lookupD "" ctx with
      | some v => (fmtSM ctx .text rest).map fun t => (valueStr v).data ++ t
      | none => none
    else fmtSM ctx (.inName [c]) rest
  | .inName acc, c :: rest =>
    if c == '\x7d' then
      match lookupD (String.mk acc.reverse) ctx with
      | some v => (fmtSM ctx .text rest).map fun t => (valueStr v).data ++ t
      | none => none
    else fmtSM ctx (.inName (c :: acc)) rest
  | .closeB, c :: rest =>
    if c == '\x7d' then (fmtSM ctx .text rest).map fun t => '\x7d' :: t
    else none

/-- The placeholder names a template references, in order; `none` when the
template itself is malformed (same cases in which `str.format` raises
regardless of the context). -/
def phSM : PMode → List Char → Option (List String)
  | .text, [] => some []
  | .openB, [] => none
  | .inName _, [] => none
  | .closeB, [] => none
  | .text, c :: rest =>
    if c == '\x7b' then phSM .openB rest
    else if c == '\x7d' then phSM .closeB rest
    else phSM .text rest
  | .openB, c :: rest =>
    if c == '\x7b' then phSM .text rest
    else if c == '\x7d' then (phSM .text rest).map fun P => "" :: P
    else phSM (.inName [c]) rest
  | .inName acc, c :: rest =>
    if c == '\x7d' then (phSM .text rest).map fun P => String.mk acc.reverse :: P
    else phSM (.inName (c :: acc)) rest
  | .closeB, c :: rest =>
    if c == '\x7d' then phSM .text rest
    else none

def fmt (ctx : List (String × Value)) (t : String) : Option String :=
  (fmtSM ctx .text t.data).map String.mk

def placeholdersOf (t : String) : Option (List String) := phSM .text t.data

/-- `render(template, out, context)` from builder.py: read the template
from the project tree `ts`, substitute, create the missing parent
directories of `out`, write, and return the output path. -/
def render (ts : String → Option String) (template out : String)
    (ctx : List (String × Value)) (fs : FS) : Except Err (String × FS) :=
  match ts template with
  | none => .error (.templateNotFound template)
  | some t =>
    match fmt ctx t with
    | none => .error .missingPlaceholder
    | some r =>
      let dn := dirname out
      let files' : String → Option String := fun p => if p == out then some r else fs.files p
      if fs.dirs dn then .ok (out, { files := files', dirs := fs.dirs })
      else if dn == "" then .error (.fileNotFound dn)
      else .ok (out, { files := files', dirs := fun p => (dirChain dn).contains p || fs.dirs p })

/-- `shutil.copytree(src, dst)`: `src` must exist in the project tree `pt`
(which maps a source directory to its relative files); `os.makedirs(dst)`
raises `FileExistsError` when `dst` already exists, otherwise the tree is
copied.  This is the stdlib behaviour on every Python 3 version
(`dirs_exist_ok` defaults to `False`). -/
def copytree (pt : String → Option (List (String × String))) (src dst : String)
    (fs : FS) : Except Err FS :=
  match pt src with
  | none => .error (.fileNotFound src)
  | some entries =>
    if fs.dirs dst then .error (.fileExists dst)
    else
      let fs1 : FS := { files := fs.files, dirs := fun p => (dirChain dst).contains p || fs.dirs p }
      .ok (entries.foldl (fun acc e =>
        { files := fun p => if p == pathJoin dst e.1 then some e.2 else acc.files p,
          dirs := fun p => (dirChain (dirname (pathJoin dst e.1))).contains p || acc.dirs p }) fs1)

/-- Which `Distro` subclass a distribution instance belongs to. -/
inductive DistroClass where
  | debianLike
  | archLinuxLike
deriving DecidableEq

/-- A `Distro` instance: the class-level tables of `DebianLike` /
`ArchLinuxLike` in builder.py.  Tables a family does not define are empty
(the base class defaults `()` / `{}`). -/
structure Distro where
  cls : DistroClass
  name : String
  template_path : String
  host_archs : List String
  client_archs : List String
  compilers_by_host_arch : List (String × List String)
  packages_by_arch : List (String × String)
  ports_by_arch : List (String × Nat)
  toolchains_by_arch : List (String × String)
  flags_by_arch : List (String × String)
  images_by_arch : List (String × String)

/-- `DebianLike('debian:buster')` with the class tables of builder.py. -/
def debianBuster : Distro :=
  { cls := .debianLike
    name := "debian:buster"
    template_path := "debian-like"
    host_archs := ["amd64", "i386", "arm32v7", "arm64v8", "ppc64le", "s390x"]
    client_archs := ["amd64", "i386", "arm32v7", "arm64v8", "ppc64le", "s390x"]
    compilers_by_host_arch :=
      [("amd64", ["amd64", "i386", "arm32v7", "arm64v8", "ppc64le", "s390x"]),
       ("i386", ["amd64", "i386", "arm64v8", "ppc64le"]),
       ("arm32v7", ["arm32v7"]),
       ("arm64v8", ["amd64", "i386", "arm64v8"]),
       ("ppc64le", ["amd64", "i386", "arm64v8", "ppc64le"]),
       ("s390x", ["s390x"])]
    packages_by_arch :=
      [("amd64", "gcc-x86-64-linux-gnu g++-x86-64-linux-gnu binutils-x86-64-linux-gnu"),
       ("i386", "gcc-i686-linux-gnu g++-i686-linux-gnu binutils-i686-linux-gnu"),
       ("arm32v7", "gcc-arm-linux-gnueabihf g++-arm-linux-gnueabihf binutils-arm-linux-gnueabihf"),
       ("arm64v8", "gcc-aarch64-linux-gnu g++-aarch64-linux-gnu binutils-aarch64-linux-gnu"),
       ("ppc64le", "gcc-powerpc64le-linux-gnu g++-powerpc64le-linux-gnu binutils-powerpc64le-linux-gnu"),
       ("s390x", "gcc-s390x-linux-gnu g++-s390x-linux-gnu binutils-s390x-linux-gnu")]
    ports_by_arch :=
      [("i386", 3603), ("amd64", 3604), ("arm32v7", 3607),
       ("arm64v8", 3608), ("s390x", 3609), ("ppc64le", 3610)]
    toolchains_by_arch :=
      [("amd64", "x86_64-linux-gnu"), ("i386", "i686-linux-gnu"),
       ("ppc64le", "powerpc64le-linux-gnu"), ("s390x", "s390x-linux-gnu"),
       ("arm32v7", "arm-linux-gnueabihf"), ("arm64v8", "aarch64-linux-gnu")]
    flags_by_arch :=
      [("amd64", "START_DISTCC_X86_64_LINUX_GNU"), ("i386", "START_DISTCC_I686_LINUX_GNU"),
       ("ppc64le", "START_DISTCC_PPC64LE_LINUX_GNU"), ("s390x", "START_DISTCC_S390X_LINUX_GNU"),
       ("arm32v7", "START_DISTCC_ARM_LINUX_GNUEABIHF"), ("arm64v8", "START_DISTCC_AARCH64_LINUX_GNU")]
    images_by_arch := [] }

/-- `ArchLinuxLike('archlinux')` with the class tables of builder.py. -/
def archlinux : Distro :=
  { cls := .archLinuxLike
    name := "archlinux"
    template_path := "archlinux-like"
    host_archs := ["amd64"]
    client_archs := ["amd64", "arm32v5", "arm32v6", "arm32v7", "arm64v8"]
    compilers_by_host_arch :=
      [("amd64", ["amd64", "arm32v5", "arm32v6", "arm32v7", "arm64v8"])]
    packages_by_arch := []
    ports_by_arch :=
      [("amd64", 3704), ("arm32v5", 3705), ("arm32v6", 3706),
       ("arm32v7", 3707), ("arm64v8", 3708)]
    toolchains_by_arch :=
      [("arm32v5", "/toolchains/x-tools/arm-unknown-linux-gnueabi"),
       ("arm32v6", "/toolchains/x-tools6h/arm-unknown-linux-gnueabihf"),
       ("arm32v7", "/toolchains/x-tools7h/arm-unknown-linux-gnueabihf"),
       ("arm64v8", "/toolchains/x-tools8/aarch64-unknown-linux-gnu")]
    flags_by_arch := []
    images_by_arch :=
      [("amd64", "archlinux:20200908"),
       ("arm32v5", "lopsided/archlinux@sha256:66b26a83a39e26e2a390b5b92105f80e6042d0db79ee22b1f57d169307b87a58"),
       ("arm32v6", "lopsided/archlinux@sha256:109729d4d863e14fed6faa1437f0eaee8133b26c310079c8294a4c7db6dbebb5"),
       ("arm32v7", "lopsided/archlinux@sha256:fbf2d806f207a2e9a5400bd20672b80ca318a2e59fc56c1c0f90b4e9adb60f4a"),
       ("arm64v8", "lopsided/archlinux@sha256:f9d68dd73a85b587539e04ef26b18d91b243bee8e1a343ad97f67183f275e548")] }

/-- `Distro.out_path`: `Path(slugify(self.name))`. -/
def outPath (d : Distro) : String := slugify d.name

/-- `DebianLike.get_compiler_path_part_by_arch`: empty when host and
compiler arch coincide, else `Path('/usr/local/') / toolchain / 'bin:'`. -/
def debianCompilerPathPart (d : Distro) (host : Value) (compiler_arch : String) :
    Except Err String :=
  if host = Value.str compiler_arch then .ok ""
  else
    match lookupD compiler_arch d.toolchains_by_arch with
    | some tc => .ok (pathJoin (pathJoin "/usr/local/" tc) "bin:")
    | none => .error (.keyError compiler_arch)

/-- `ArchLinuxLike.get_compiler_path_part_by_arch`: empty when host and
client arch coincide, else `Path(toolchain) / 'bin:'`. -/
def archCompilerPathPart (d : Distro) (host : Value) (client_arch : String) :
    Except Err String :=
  if host = Value.str client_arch then .ok ""
  else
    match lookupD client_arch d.toolchains_by_arch with
    | some tc => .ok (pathJoin tc "bin:")
    | none => .error (.keyError client_arch)

/-- Dispatch of the abstract `get_compiler_path_part_by_arch`. -/
def getCompilerPathPart (d : Distro) (host : Value) (client_arch : String) :
    Except Err String :=
  match d.cls with
  | .debianLike => debianCompilerPathPart d host client_arch
  | .archLinuxLike => archCompilerPathPart d host client_arch

/-- `dict.get` miss becomes the Python value `None` stored in the dict. -/
def toolchainValue (d : Distro) (client_arch : String) : Value :=
  match lookupD client_arch d.toolchains_by_arch with
  | some tc => .str tc
  | none => .vnone

/-- `Distro.get_template_context` (the base-class part): always adds
`distro` and `distro_slug`, defaults a falsy `tag` to `"devel"`, and when
`client_arch` is truthy adds `host_port` (a `ports_by_arch[...]` lookup
that raises `KeyError` on a miss) and `toolchain`; when additionally
`host_arch` is truthy adds `compiler_path_part`.  A truthy non-string
arch value raises `KeyError` since the tables are keyed by strings. -/
def baseTemplateContext (d : Distro) (ctx0 : List (String × Value)) :
    Except Err (List (String × Value)) :=
  let ctx1 := dictInsert "distro_slug" (.str (slugify d.name))
    (dictInsert "distro" (.str d.name) ctx0)
  let ctx2 :=
    match lookupD "tag" ctx1 with
    | some v => if truthy v then ctx1 else dictInsert "tag" (.str "devel") ctx1
    | none => dictInsert "tag" (.str "devel") ctx1
  match lookupD "client_arch" ctx2 with
  | none => .ok ctx2
  | some cv =>
    if truthy cv then
      match cv with
      | .str ca =>
        match lookupD ca d.ports_by_arch with
        | none => .error (.keyError ca)
        | some port =>
          let ctx3 := dictInsert "toolchain" (toolchainValue d ca)
            (dictInsert "host_port" (.int port) ctx2)
          match lookupD "host_arch" ctx3 with
          | none => .ok ctx3
          | some hv =>
            if truthy hv then
              match getCompilerPathPart d hv ca with
              | .ok cpp => .ok (dictInsert "compiler_path_part" (.str cpp) ctx3)
              | .error e => .error e
            else .ok ctx3
      | _ => .error (.keyError (valueStr cv))
    else .ok ctx2

/-- `DebianLike.get_apt_packages_by_host_arch`. -/
def getAptPackagesByHostArch (d : Distro) (host_arch : String) : Except Err String :=
  match lookupD host_arch d.compilers_by_host_arch with
  | none => .error (.keyError host_arch)
  | some compilerArchs =>
    compilerArchs.foldlM (fun packages compiler_arch =>
      match lookupD compiler_arch d.packages_by_arch with
      | some p => .ok (packages ++ " " ++ p)
      | none => .error (.keyError compiler_arch)) "build-essential g++ distcc"

/-- `DebianLike.get_template_context`: the base context, then `flag` when
`client_arch` is truthy and `packages` when `host_arch` is truthy. -/
def debianTemplateContext (d : Distro) (ctx0 : List (String × Value)) :
    Except Err (List (String × Value)) :=
  match baseTemplateContext d ctx0 with
  | .error e => .error e
  | .ok ctx =>
    let step1 : Except Err (List (String × Value)) :=
      match lookupD "client_arch" ctx with
      | none => .ok ctx
      | some cv =>
        if truthy cv then
          match cv with
          | .str ca =>
            match lookupD ca d.flags_by_arch with
            | some f => .ok (dictInsert "flag" (.str f) ctx)
            | none => .error (.keyError ca)
          | _ => .error (.keyError (valueStr cv))
        else .ok ctx
    match step1 with
    | .error e => .error e
    | .ok ctx' =>
      match lookupD "host_arch" ctx' with
      | none => .ok ctx'
      | some hv =>
        if truthy hv then
          match hv with
          | .str ha =>
            match getAptPackagesByHostArch d ha with
            | .ok pkgs => .ok (dictInsert "packages" (.str pkgs) ctx')
            | .error e => .error e
          | _ => .error (.keyError (valueStr hv))
        else .ok ctx'

/-- `ArchLinuxLike.get_template_context`: the base context, then
`client_image` and (again) `toolchain` when `client_arch` is truthy, and
`host_image` when `host_arch` is truthy. -/
def archTemplateContext (d : Distro) (ctx0 : List (String × Value)) :
    Except Err (List (String × Value)) :=
  match baseTemplateContext d ctx0 with
  | .error e => .error e
  | .ok ctx =>
    let step1 : Except Err (List (String × Value)) :=
      match lookupD "client_arch" ctx with
      | none => .ok ctx
      | some cv =>
        if truthy cv then
          match cv with
          | .str ca =>
            match lookupD ca d.images_by_arch with
            | some img => .ok (dictInsert "toolchain" (toolchainValue d ca)
                (dictInsert "client_image" (.str img) ctx))
            | none => .error (.keyError ca)
          | _ => .error (.keyError (valueStr cv))
        else .ok ctx
    match step1 with
    | .error e => .error e
    | .ok ctx' =>
      match lookupD "host_arch" ctx' with
      | none => .ok ctx'
      | some hv =>
        if truthy hv then
          match hv with
          | .str ha =>
            match lookupD ha d.images_by_arch with
            | some img => .ok (dictInsert "host_image" (.str img) ctx')
            | none => .error (.keyError ha)
          | _ => .error (.keyError (valueStr hv))
        else .ok ctx'

/-- Virtual dispatch of `get_template_context`. -/
def getTemplateContext (d : Distro) (ctx0 : List (String × Value)) :
    Except Err (List (String × Value)) :=
  match d.cls with
  | .debianLike => debianTemplateContext d ctx0
  | .archLinuxLike => archTemplateContext d ctx0

/-- Keyword-argument assembly `f(a=..., b=..., **kwargs)`: the explicit
pairs first, then the forwarded keyword dict. -/
def mkKwargs (pairs kw : List (String × Value)) : List (String × Value) :=
  kw.foldl (fun acc p => dictInsert p.1 p.2 acc) pairs

/-- `Distro.docker_compose_file_path`. -/
def dockerComposeFilePath (d : Distro) (host_arch client_arch : String) : String :=
  pathJoin (outPath d)
    ("docker-compose." ++ slugify d.name ++ ".host-" ++ host_arch ++
      ".client-" ++ client_arch ++ ".yml")

/-- `Distro.render_dockerfile_host`. -/
def renderDockerfileHost (ts : String → Option String) (d : Distro)
    (kw : List (String × Value)) (fs : FS) : Except Err FS :=
  d.host_archs.foldlM (fun fs host_arch =>
    match getTemplateContext d (mkKwargs [("host_arch", .str host_arch)] kw) with
    | .error e => .error e
    | .ok ctx =>
      match render ts (pathJoin d.template_path "host/Dockerfile.template")
          (pathJoin (pathJoin (outPath d) "host") ("Dockerfile." ++ host_arch)) ctx fs with
      | .error e => .error e
      | .ok r => .ok r.2) fs

/-- `Distro.render_dockerfile_client`. -/
def renderDockerfileClient (ts : String → Option String) (d : Distro)
    (kw : List (String × Value)) (fs : FS) : Except Err FS :=
  d.client_archs.foldlM (fun fs client_arch =>
    match getTemplateContext d (mkKwargs [("client_arch", .str client_arch)] kw) with
    | .error e => .error e
    | .ok ctx =>
      match render ts (pathJoin d.template_path "client/Dockerfile.template")
          (pathJoin (pathJoin (outPath d) "client") ("Dockerfile." ++ client_arch)) ctx fs with
      | .error e => .error e
      | .ok r => .ok r.2) fs

/-- `Distro.render_docker_compose`. -/
def renderDockerCompose (ts : String → Option String) (d : Distro)
    (kw : List (String × Value)) (fs : FS) : Except Err FS :=
  d.host_archs.foldlM (fun fs host_arch =>
    d.client_archs.foldlM (fun fs client_arch =>
      match getTemplateContext d
          (mkKwargs [("host_arch", .str host_arch), ("client_arch", .str client_arch)] kw) with
      | .error e => .error e
      | .ok ctx =>
        match render ts (pathJoin d.template_path "docker-compose.template.yml")
            (dockerComposeFilePath d host_arch client_arch) ctx fs with
        | .error e => .error e
        | .ok r => .ok r.2) fs) fs

/-- `DebianLike.render_initd_distccd`: three files per
(host arch, compiler arch the host can cross-compile for) pair. -/
def renderInitdDistccd (ts : String → Option String) (d : Distro)
    (kw : List (String × Value)) (fs : FS) : Except Err FS :=
  d.host_archs.foldlM (fun fs host_arch =>
    match lookupD host_arch d.compilers_by_host_arch with
    | none => .error (.keyError host_arch)
    | some compilerArchs =>
      compilerArchs.foldlM (fun fs client_arch =>
        match getTemplateContext d
            (mkKwargs [("host_arch", .str host_arch), ("client_arch", .str client_arch)] kw) with
        | .error e => .error e
        | .ok ctx =>
          let stem := "distccd.host-" ++ host_arch ++ ".client-" ++ client_arch
          match render ts (pathJoin d.template_path "host/build-context/etc/default/distccd.template")
              (pathJoin (pathJoin (outPath d) "host/build-context/etc/default") stem) ctx fs with
          | .error e => .error e
          | .ok r1 =>
            match render ts (pathJoin d.template_path "host/build-context/etc/init.d/distccd.template")
                (pathJoin (pathJoin (outPath d) "host/build-context/etc/init.d") stem) ctx r1.2 with
            | .error e => .error e
            | .ok r2 =>
              match render ts (pathJoin d.template_path "host/build-context/etc/logrotate.d/distccd.template")
                  (pathJoin (pathJoin (outPath d) "host/build-context/etc/logrotate.d") stem) ctx r2.2 with
              | .error e => .error e
              | .ok r3 => .ok r3.2) fs) fs

/-- `ArchLinuxLike.render_systemd_distccd`: two files per
(host arch, compiler arch) pair, then the four `shutil.copytree` calls
into the client and host build contexts. -/
def renderSystemdDistccd (ts : String → Option String)
    (pt : String → Option (List (String × String))) (d : Distro)
    (kw : List (String × Value)) (fs : FS) : Except Err FS :=
  match (d.host_archs.foldlM (fun fs host_arch =>
    match lookupD host_arch d.compilers_by_host_arch with
    | none => .error (.keyError host_arch)
    | some compilerArchs =>
      compilerArchs.foldlM (fun fs client_arch =>
        match getTemplateContext d
            (mkKwargs [("host_arch", .str host_arch), ("client_arch", .str client_arch)] kw) with
        | .error e => .error e
        | .ok ctx =>
          let stem := "distccd.host-" ++ host_arch ++ ".client-" ++ client_arch
          match render ts (pathJoin d.template_path "host/build-context/etc/conf.d/distccd.template")
              (pathJoin (pathJoin (outPath d) "host/build-context/etc/conf.d") stem) ctx fs with
          | .error e => .error e
          | .ok r1 =>
            match render ts
                (pathJoin d.template_path "host/build-context/usr/lib/systemd/system/distccd.template.service")
                (pathJoin (pathJoin (outPath d) "host/build-context/usr/lib/systemd/system")
                  (stem ++ ".service")) ctx r1.2 with
            | .error e => .error e
            | .ok r2 => .ok r2.2) fs) fs : Except Err FS) with
  | .error e => .error e
  | .ok fs =>
    let hostBC := pathJoin (outPath d) "host/build-context"
    let clientBC := pathJoin (outPath d) "client/build-context"
    match copytree pt (pathJoin d.template_path "client/scripts") (pathJoin clientBC "scripts") fs with
    | .error e => .error e
    | .ok fs =>
      match copytree pt "shared-build-context/client" clientBC fs with
      | .error e => .error e
      | .ok fs =>
        match copytree pt (pathJoin d.template_path "host/scripts") (pathJoin hostBC "scripts") fs with
        | .error e => .error e
        | .ok fs => copytree pt "shared-build-context/host" hostBC fs

/-- `Distro.render` plus the subclass extension (`render_initd_distccd`
for `DebianLike`, `render_systemd_distccd` for `ArchLinuxLike`). -/
def distroRender (ts : String → Option String)
    (pt : String → Option (List (String × String))) (d : Distro)
    (kw : List (String × Value)) (fs : FS) : Except Err FS :=
  match renderDockerfileHost ts d kw fs with
  | .error e => .error e
  | .ok fs =>
    match renderDockerfileClient ts d kw fs with
    | .error e => .error e
    | .ok fs =>
      match renderDockerCompose ts d kw fs with
      | .error e => .error e
      | .ok fs =>
        match d.cls with
        | .debianLike => renderInitdDistccd ts d kw fs
        | .archLinuxLike => renderSystemdDistccd ts pt d kw fs

/-- `Distro.clean`: `shutil.rmtree(self.out_path)` — raises
`FileNotFoundError` when the output directory does not exist, otherwise
removes the whole tree. -/
def underPath (root p : String) : Bool :=
  p == root || leadsWith (root ++ "/").data p.data

def clean (d : Distro) (fs : FS) : Except Err FS :=
  if fs.dirs (outPath d) then
    .ok { files := fun p => if underPath (outPath d) p then none else fs.files p
          dirs := fun p => if underPath (outPath d) p then false else fs.dirs p }
  else .error (.fileNotFound (outPath d))

/-- `Distro.__init__`: `self.registry[name] = self`. -/
def registerD (d : Distro) (reg : List (String × Distro)) : List (String × Distro) :=
  dictInsert d.name d reg

/-- The module-level registrations at the bottom of builder.py. -/
def registry : List (String × Distro) := registerD archlinux (registerD debianBuster [])

/-- The message of the `ValueError` raised by `Distro.get`. -/
def unknownDistroMsg (name : String) (reg : List (String × Distro)) : String :=
  "Unsupported distro " ++ name ++ ", choose from " ++ joinSep ", " (reg.map Prod.fst)

/-- `Distro.get(name)`: raise `ValueError` listing all registered names
when absent, return the registered instance otherwise. -/
def distroGet (name : String) (reg : List (String × Distro)) : Except Err Distro :=
  match lookupD name reg with
  | some d => .ok d
  | none => .error (.valueError (unknownDistroMsg name reg))

/-- The `list-host-archs` CLI output: `'\n'.join(args.distro.host_archs)`. -/
def listHostArchsOutput (d : Distro) : String := joinSep "\n" d.host_archs

/-- Modelled from the spec: the template files under `debian-like/`,
`archlinux-like/` and `shared-build-context/` are part of this repository
but are not under `src/`; the spec only states that every referenced
template exists and is rendered by placeholder substitution from the
context (which always carries `tag`).  They are abstracted as a store in
which every template path resolves to a small template using `tag`. -/
def specTemplates : String → Option String := fun _ => some "template-content {tag}"

/-- Modelled from the spec: the `client/scripts`, `host/scripts` and
`shared-build-context/{client,host}` directories copied by
`render_systemd_distccd` exist in the repository but are not under
`src/`; each is abstracted as a directory with one file. -/
def specProjectTree : String → Option (List (String × String)) :=
  fun _ => some [("file", "content")]

/-- Decidable check for the compiler-path-fragment contract over every
(host arch, client arch) pair the orchestrator feeds to the context
builder of a distribution: the `compiler_path_part` binding is the empty
string exactly when the archs coincide, and otherwise is a non-empty
string containing the client arch's registered toolchain path followed by
the `bin` directory suffix. -/
def compilerPathCheck (d : Distro) : Bool :=
  d.host_archs.all fun h => d.client_archs.all fun c =>
    match getTemplateContext d (mkKwargs [("host_arch", .str h), ("client_arch", .str c)] []) with
    | .ok ctx =>
      match lookupD "compiler_path_part" ctx with
      | some (.str s) =>
        if h == c then s == ""
        else
          !(s == "") &&
            (match lookupD c d.toolchains_by_arch with
             | some tc => strContainsB s (tc ++ "/bin:")
             | none => false)
      | _ => false
    | .error _ => false

/-- The `tag` binding of a successfully built template context. -/
def tagOf : Except Err (List (String × Value)) → Option Value
  | .ok ctx => lookupD "tag" ctx
  | .error _ => none

/-- Projection of a successful render result (used to name concrete
witnesses of `Except`-valued runs). -/
def exRes : Except Err (String × FS) → String × FS
  | .ok r => r
  | .error _ => ("", emptyFS)

/-- Concrete template store for witnesses: one template `"A {x} B"`. -/
def ts0 : String → Option String := fun p => if p == "tmpl" then some "A {x} B" else none

def ctxW : List (String × Value) := [("x", Value.str "1")]

def extraW : List (String × Value) := [("y", Value.str "2")]

/-- Concrete file system for the clean witness: the debian output
directory exists. -/
def fsW : FS := ⟨fun _ => none, fun p => p == "debian-buster"⟩

/-- A second distribution carrying the same name as `debianBuster` (used
to witness last-write-wins registration). -/
def debianBusterV2 : Distro := { debianBuster with template_path := "debian-like-v2" }

/-! Association-list and formatter lemmas. -/

theorem str_data_append (a b : String) : (a ++ b).data = a.data ++ b.data := by
  cases a; cases b; rfl

theorem lookupD_append {α : Type} (k : String) (l₁ l₂ : List (String × α)) (v : α)
    (h : lookupD k l₁ = some v) : lookupD k (l₁ ++ l₂) = some v := by
  induction l₁ with
  | nil => simp [lookupD] at h
  | cons p rest ih =>
    rw [lookupD] at h
    rw [List.cons_append, lookupD]
    by_cases hk : (p.1 == k) = true
    · simpa [hk] using h
    · simp only [hk, if_false, Bool.false_eq_true, if_neg] at h ⊢
      exact ih h

theorem lookupD_dictInsert_self {α : Type} (k : String) (v : α)
    (l : List (String × α)) : lookupD k (dictInsert k v l) = some v := by
  induction l with
  | nil => simp [dictInsert, lookupD]
  | cons p rest ih =>
    rw [dictInsert]
    by_cases hk : (p.1 == k) = true
    · simp [hk, lookupD]
    · simp only [hk, if_neg, Bool.false_eq_true, if_false]
      rw [lookupD]
      simp only [hk, if_neg, Bool.false_eq_true, if_false]
      exact ih

theorem fmtSM_keys (ctx : List (String × Value)) :
    ∀ (l : List Char) (m : PMode) (r : List Char) (P : List String),
      fmtSM ctx m l = some r → phSM m l = some P →
      ∀ k ∈ P, (lookupD k ctx).isSome = true := by
  intro l
  induction l with
  | nil =>
    intro m r P hf hp k hk
    cases m <;> simp [fmtSM, phSM] at hf hp
    subst hp
    simp at hk
  | cons c rest ih =>
    intro m r P hf hp k hk
    cases m with
    | text =>
      rw [fmtSM] at hf
      rw [phSM] at hp
      by_cases h1 : (c == '\x7b') = true
      · rw [if_pos h1] at hf hp
        exact ih _ _ _ hf hp k hk
      · rw [if_neg h1] at hf hp
        by_cases h2 : (c == '\x7d') = true
        · rw [if_pos h2] at hf hp
          exact ih _ _ _ hf hp k hk
        · rw [if_neg h2] at hf hp
          obtain ⟨r', hr', -⟩ := Option.map_eq_some'.1 hf
          exact ih _ _ _ hr' hp k hk
    | openB =>
      rw [fmtSM] at hf
      rw [phSM] at hp
      by_cases h1 : (c == '\x7b') = true
      · rw [if_pos h1] at hf hp
        obtain ⟨r', hr', -⟩ := Option.map_eq_some'.1 hf
        exact ih _ _ _ hr' hp k hk
      · rw [if_neg h1] at hf hp
        by_cases h2 : (c == '\x7d') = true
        · rw [if_pos h2] at hf hp
          obtain ⟨P', hP', hPe⟩ := Option.map_eq_some'.1 hp
          subst hPe
          cases hl : lookupD "" ctx with
          | none => rw [hl] at hf; exact absurd hf (by simp)
          | some v =>
            rw [hl] at hf
            obtain ⟨r', hr', -⟩ := Option.map_eq_some'.1 hf
            rcases List.mem_cons.1 hk with hk0 | hk1
            · subst hk0; simp [hl]
            · exact ih _ _ _ hr' hP' k hk1
        · rw [if_neg h2] at hf hp
          exact ih _ _ _ hf hp k hk
    | inName acc =>
      rw [fmtSM] at hf
      rw [phSM] at hp
      by_cases h2 : (c == '\x7d') = true
      · rw [if_pos h2] at hf hp
        obtain ⟨P', hP', hPe⟩ := Option.map_eq_some'.1 hp
        subst hPe
        cases hl : lookupD (String.mk acc.reverse) ctx with
        | none => rw [hl] at hf; exact absurd hf (by simp)
        | some v =>
          rw [hl] at hf
          obtain ⟨r', hr', -⟩ := Option.map_eq_some'.1 hf
          rcases List.mem_cons.1 hk with hk0 | hk1
          · subst hk0; simp [hl]
          · exact ih _ _ _ hr' hP' k hk1
      · rw [if_neg h2] at hf hp
        exact ih _ _ _ hf hp k hk
    | closeB =>
      rw [fmtSM] at hf
      rw [phSM] at hp
      by_cases h2 : (c == '\x7d') = true
      · rw [if_pos h2] at hf hp
        obtain ⟨r', hr', -⟩ := Option.map_eq_some'.1 hf
        exact ih _ _ _ hr' hp k hk
      · rw [if_neg h2] at hf
        exact absurd hf (by simp)

theorem fmtSM_ctx_append (ctx extra : List (String × Value)) :
    ∀ (l : List Char) (m : PMode) (r : List Char),
      fmtSM ctx m l = some r → fmtSM (ctx ++ extra) m l = some r := by
  intro l
  induction l with
  | nil =>
    intro m r hf
    cases m <;> simp [fmtSM] at hf ⊢
    exact hf
  | cons c rest ih =>
    intro m r hf
    cases m with
    | text =>
      rw [fmtSM] at hf ⊢
      by_cases h1 : (c == '\x7b') = true
      · rw [if_pos h1] at hf ⊢; exact ih _ _ hf
      · rw [if_neg h1] at hf ⊢
        by_cases h2 : (c == '\x7d') = true
        · rw [if_pos h2] at hf ⊢; exact ih _ _ hf
        · rw [if_neg h2] at hf ⊢
          obtain ⟨r', hr', he⟩ := Option.map_eq_some'.1 hf
          rw [ih _ _ hr']
          simpa using he
    | openB =>
      rw [fmtSM] at hf ⊢
      by_cases h1 : (c == '\x7b') = true
      · rw [if_pos h1] at hf ⊢
        obtain ⟨r', hr', he⟩ := Option.map_eq_some'.1 hf
        rw [ih _ _ hr']
        simpa using he
      · rw [if_neg h1] at hf ⊢
        by_cases h2 : (c == '\x7d') = true
        · rw [if_pos h2] at hf ⊢
          cases hl : lookupD "" ctx with
          | none => rw [hl] at hf; exact absurd hf (by simp)
          | some v =>
            rw [hl] at hf
            rw [lookupD_append _ _ extra _ hl]
            obtain ⟨r', hr', he⟩ := Option.map_eq_some'.1 hf
            rw [ih _ _ hr']
            simpa using he
        · rw [if_neg h2] at hf ⊢
          exact ih _ _ hf
    | inName acc =>
      rw [fmtSM] at hf ⊢
      by_cases h2 : (c == '\x7d') = true
      · rw [if_pos h2] at hf ⊢
        cases hl : lookupD (String.mk acc.reverse) ctx with
        | none => rw [hl] at hf; exact absurd hf (by simp)
        | some v =>
          rw [hl] at hf
          rw [lookupD_append _ _ extra _ hl]
          obtain ⟨r', hr', he⟩ := Option.map_eq_some'.1 hf
          rw [ih _ _ hr']
          simpa using he
      · rw [if_neg h2] at hf ⊢
        exact ih _ _ hf
    | closeB =>
      rw [fmtSM] at hf ⊢
      by_cases h2 : (c == '\x7d') = true
      · rw [if_pos h2] at hf ⊢
        obtain ⟨r', hr', he⟩ := Option.map_eq_some'.1 hf
        rw [ih _ _ hr']
        simpa using he
      · rw [if_neg h2] at hf
        exact absurd hf (by simp)

theorem fmt_ctx_append (ctx extra : List (String × Value)) (t : String) (r : String)
    (h : fmt ctx t = some r) : fmt (ctx ++ extra) t = some r := by
  unfold fmt at h ⊢
  obtain ⟨r', hr', he⟩ := Option.map_eq_some'.1 h
  rw [fmtSM_ctx_append ctx extra _ _ _ hr']
  simpa using he

/-! The claims. -/

/-- C1: the claim says rendering all artifacts for every registered
(distribution, tag) pair twice in succession succeeds both times with
byte-identical outputs.  For `archlinux` even the first render fails:
`render_systemd_distccd` first copies `client/scripts` to
`archlinux/client/build-context/scripts` (whose `os.makedirs` creates
`archlinux/client/build-context` as a parent) and then calls
`shutil.copytree('shared-build-context/client',
'archlinux/client/build-context')`, which raises `FileExistsError`
because its destination now exists.  This theorem evaluates the full
`render archlinux` pipeline at that failing input. -/
theorem archlinux_first_render_raises_file_exists :
    distroRender specTemplates specProjectTree archlinux [("tag", Value.str "devel")] emptyFS =
      .error (.fileExists "archlinux/client/build-context") := rfl

/-- C2: for every registered distribution and every (host arch,
client arch) pair from its declared architecture sets — the inputs the
orchestrator hands to the context builder — the `compiler_path_part`
binding of the built context is the empty string exactly when the archs
are equal, and otherwise a non-empty string containing the client arch's
registered toolchain path followed by the `bin` directory suffix. -/
theorem compiler_path_fragment_contract :
    compilerPathCheck debianBuster = true ∧ compilerPathCheck archlinux = true :=
  ⟨rfl, rfl⟩

/-- C3: looking up any name absent from the registry fails with a
`ValueError` whose message contains every currently registered
distribution name, and looking up each registered name returns the
registered distribution. -/
theorem lookup_unknown_distro_lists_all_names (name : String) :
    (lookupD name registry = none →
      distroGet name registry = .error (.valueError (unknownDistroMsg name registry)) ∧
      ∀ p ∈ registry.map Prod.fst, p.data <:+: (unknownDistroMsg name registry).data) ∧
    (distroGet "debian:buster" registry = .ok debianBuster ∧
      distroGet "archlinux" registry = .ok archlinux) := by
  refine ⟨?_, rfl, rfl⟩
  intro h
  refine ⟨by simp [distroGet, h], ?_⟩
  intro p hp
  have hreg : registry.map Prod.fst = ["debian:buster", "archlinux"] := rfl
  rw [hreg] at hp
  simp only [List.mem_cons, List.not_mem_nil, or_false] at hp
  have hj : joinSep ", " (registry.map Prod.fst) = "debian:buster, archlinux" := rfl
  have hmsg : (unknownDistroMsg name registry).data =
      ("Unsupported distro ".data ++ name.data) ++ ", choose from debian:buster, archlinux".data := by
    unfold unknownDistroMsg
    rw [hj, str_data_append, str_data_append, str_data_append]
    simp [List.append_assoc]
  rw [hmsg]
  rcases hp with hp | hp
  · subst hp
    refine ⟨"Unsupported distro ".data ++ name.data ++ ", choose from ".data, ", archlinux".data, ?_⟩
    simp [List.append_assoc]
  · subst hp
    refine ⟨"Unsupported distro ".data ++ name.data ++ ", choose from debian:buster, ".data, [], ?_⟩
    simp [List.append_assoc]

/-- Witness for C3 at the unregistered name `"fedora"`. -/
theorem lookup_unknown_distro_lists_all_names_witness :
    lookupD "fedora" registry = none ∧
    (distroGet "fedora" registry = .error (.valueError (unknownDistroMsg "fedora" registry)) ∧
      ∀ p ∈ registry.map Prod.fst, p.data <:+: (unknownDistroMsg "fedora" registry).data) :=
  ⟨rfl, (lookup_unknown_distro_lists_all_names "fedora").1 rfl⟩

/-- C4: building a template context with a truthy `client_arch` that has
no entry in the distribution's `ports_by_arch` table fails with the
`KeyError` of the `ports_by_arch[client_arch]` lookup instead of
substituting any default port. -/
theorem missing_port_arch_errors (d : Distro) (hd : d = debianBuster ∨ d = archlinux)
    (ca : String) (hne : (ca == "") = false)
    (hport : lookupD ca d.ports_by_arch = none) :
    getTemplateContext d [("client_arch", Value.str ca)] = .error (.keyError ca) := by
  rcases hd with hd | hd
  · subst hd
    simp only [debianBuster] at hport
    simp [lookupD] at hport
    simp [getTemplateContext, debianTemplateContext, baseTemplateContext, dictInsert, lookupD,
      truthy, hne, debianBuster]
    rw [hport]
  · subst hd
    simp only [archlinux] at hport
    simp [lookupD] at hport
    simp [getTemplateContext, archTemplateContext, baseTemplateContext, dictInsert, lookupD,
      truthy, hne, archlinux]
    rw [hport]

/-- Witness for C4: `archlinux` has no port for `"i386"`. -/
theorem missing_port_arch_errors_witness :
    (("i386" == "") = false) ∧ lookupD "i386" archlinux.ports_by_arch = none ∧
    getTemplateContext archlinux [("client_arch", Value.str "i386")] = .error (.keyError "i386") :=
  ⟨rfl, rfl, missing_port_arch_errors archlinux (Or.inr rfl) "i386" rfl rfl⟩

/-- C5: `render` fails with the missing-placeholder error when the
template references a placeholder key absent from the context; on success
it returns the output path; and extra context keys not referenced by the
template are silently ignored — rendering with the extended context
succeeds with the identical result. -/
theorem render_placeholder_contract (ts : String → Option String) (tp outp tcontent : String)
    (ctx extra : List (String × Value)) (fs : FS) (k : String) (P : List String) :
    (ts tp = some tcontent → placeholdersOf tcontent = some P → k ∈ P →
      lookupD k ctx = none → render ts tp outp ctx fs = .error .missingPlaceholder) ∧
    (∀ res, render ts tp outp ctx fs = .ok res → res.1 = outp) ∧
    (∀ res, render ts tp outp ctx fs = .ok res →
      render ts tp outp (ctx ++ extra) fs = .ok res) := by
  refine ⟨?_, ?_, ?_⟩
  · intro hts hph hk hnone
    unfold render
    rw [hts]
    cases hf : fmtSM ctx .text tcontent.data with
    | none => simp [fmt, hf]
    | some r =>
      have := fmtSM_keys ctx tcontent.data .text r P hf hph k hk
      rw [hnone] at this
      simp at this
  · intro res h
    unfold render at h
    cases hts : ts tp with
    | none => rw [hts] at h; exact absurd h (by simp)
    | some t =>
      rw [hts] at h
      dsimp only at h
      cases hf : fmt ctx t with
      | none => rw [hf] at h; exact absurd h (by simp)
      | some r =>
        rw [hf] at h
        dsimp only at h
        by_cases h1 : fs.dirs (dirname outp) = true
        · rw [if_pos h1] at h
          cases h
          rfl
        · rw [if_neg h1] at h
          by_cases h2 : (dirname outp == "") = true
          · rw [if_pos h2] at h
            exact absurd h (by simp)
          · rw [if_neg h2] at h
            cases h
            rfl
  · intro res h
    unfold render at h ⊢
    cases hts : ts tp with
    | none => rw [hts] at h; exact absurd h (by simp)
    | some t =>
      rw [hts] at h
      dsimp only at h ⊢
      cases hf : fmt ctx t with
      | none => rw [hf] at h; exact absurd h (by simp)
      | some r =>
        rw [hf] at h
        rw [fmt_ctx_append ctx extra t r hf]
        exact h

/-- Witness for C5 on the template `"A {x} B"`: the empty context fails
with the missing-placeholder error, the context binding `x` succeeds
returning the output path, and appending an unreferenced key `y` yields
the identical result. -/
theorem render_placeholder_contract_witness :
    ts0 "tmpl" = some "A {x} B" ∧
    placeholdersOf "A {x} B" = some ["x"] ∧
    lookupD "x" ([] : List (String × Value)) = none ∧
    render ts0 "tmpl" "out/f" [] emptyFS = .error .missingPlaceholder ∧
    render ts0 "tmpl" "out/f" ctxW emptyFS = .ok (exRes (render ts0 "tmpl" "out/f" ctxW emptyFS)) ∧
    (exRes (render ts0 "tmpl" "out/f" ctxW emptyFS)).1 = "out/f" ∧
    render ts0 "tmpl" "out/f" (ctxW ++ extraW) emptyFS =
      .ok (exRes (render ts0 "tmpl" "out/f" ctxW emptyFS)) := by
  have h : render ts0 "tmpl" "out/f" ctxW emptyFS =
      .ok (exRes (render ts0 "tmpl" "out/f" ctxW emptyFS)) := rfl
  exact ⟨rfl, rfl, rfl,
    (render_placeholder_contract ts0 "tmpl" "out/f" "A {x} B" [] [] emptyFS "x" ["x"]).1
      rfl rfl (by simp) rfl,
    h,
    (render_placeholder_contract ts0 "tmpl" "out/f" "A {x} B" ctxW extraW emptyFS "x" ["x"]).2.1 _ h,
    (render_placeholder_contract ts0 "tmpl" "out/f" "A {x} B" ctxW extraW emptyFS "x" ["x"]).2.2 _ h⟩

/-- C6: `render debian:buster --tag v1` writes a compose file at exactly
`debian-buster/docker-compose.debian-buster.host-amd64.client-i386.yml`,
and the context used for that render binds `host_port` to `3603` (the
registered i386 port) and `tag` to `"v1"`. -/
theorem debian_buster_render_v1_compose :
    dockerComposeFilePath debianBuster "amd64" "i386" =
      "debian-buster/docker-compose.debian-buster.host-amd64.client-i386.yml" ∧
    (match getTemplateContext debianBuster
        (mkKwargs [("host_arch", Value.str "amd64"), ("client_arch", Value.str "i386")]
          [("tag", Value.str "v1")]) with
      | .ok ctx => lookupD "host_port" ctx = some (.int 3603) ∧ lookupD "tag" ctx = some (.str "v1")
      | .error _ => False) ∧
    (match distroRender specTemplates specProjectTree debianBuster [("tag", Value.str "v1")] emptyFS with
      | .ok fs1 => (fs1.files (dockerComposeFilePath debianBuster "amd64" "i386")).isSome = true
      | .error _ => False) :=
  ⟨rfl, ⟨rfl, rfl⟩, rfl⟩

/-- C7: registering a distribution under an already-registered name does
not fail: the later registration replaces the earlier one, so a
subsequent lookup of that name returns the most recent distribution. -/
theorem register_last_write_wins (reg : List (String × Distro)) (d1 d2 : Distro)
    (h : d2.name = d1.name) :
    distroGet d1.name (registerD d2 (registerD d1 reg)) = .ok d2 := by
  unfold registerD distroGet
  rw [h, lookupD_dictInsert_self]

/-- Witness for C7: re-registering `debian:buster` with a variant
instance makes the lookup return the variant. -/
theorem register_last_write_wins_witness :
    debianBusterV2.name = debianBuster.name ∧
    distroGet debianBuster.name (registerD debianBusterV2 (registerD debianBuster [])) =
      .ok debianBusterV2 :=
  ⟨rfl, register_last_write_wins [] debianBuster debianBusterV2 rfl⟩

/-- C8: `clean` removes the distribution's entire output directory tree
when the directory exists, and fails with the file-not-found error of
`shutil.rmtree` (never a no-op) when it does not. -/
theorem clean_removes_tree_or_raises (d : Distro) (fs : FS) :
    (fs.dirs (outPath d) = true →
      ∃ fs', clean d fs = Except.ok fs' ∧
        ∀ p, underPath (outPath d) p = true → fs'.files p = none ∧ fs'.dirs p = false) ∧
    (fs.dirs (outPath d) = false → clean d fs = Except.error (Err.fileNotFound (outPath d))) := by
  constructor
  · intro h
    refine ⟨{ files := fun p => if underPath (outPath d) p then none else fs.files p,
              dirs := fun p => if underPath (outPath d) p then false else fs.dirs p }, ?_, ?_⟩
    · simp [clean, h]
    · intro p hp
      constructor <;> simp [hp]
  · intro h
    simp [clean, h]

/-- Witness for C8: on a file system where `debian-buster` exists, clean
succeeds and empties the tree; on the empty file system it raises. -/
theorem clean_removes_tree_or_raises_witness :
    (fsW.dirs (outPath debianBuster) = true ∧
      ∃ fs', clean debianBuster fsW = Except.ok fs' ∧
        ∀ p, underPath (outPath debianBuster) p = true → fs'.files p = none ∧ fs'.dirs p = false) ∧
    (emptyFS.dirs (outPath debianBuster) = false ∧
      clean debianBuster emptyFS = Except.error (Err.fileNotFound (outPath debianBuster))) :=
  ⟨⟨rfl, (clean_removes_tree_or_raises debianBuster fsW).1 rfl⟩,
   ⟨rfl, (clean_removes_tree_or_raises debianBuster emptyFS).2 rfl⟩⟩

/-- C9: `list-host-archs debian:buster` prints exactly
`amd64, i386, arm32v7, arm64v8, ppc64le, s390x` in that order. -/
theorem list_host_archs_debian_buster :
    debianBuster.host_archs = ["amd64", "i386", "arm32v7", "arm64v8", "ppc64le", "s390x"] ∧
    listHostArchsOutput debianBuster = "amd64\ni386\narm32v7\narm64v8\nppc64le\ns390x" :=
  ⟨rfl, rfl⟩

/-- C10: for both registered distributions, a supplied but falsy `tag`
(empty string, `None`, `0`) yields the context tag `"devel"` exactly as
when no tag is supplied, while a non-empty supplied tag is kept. -/
theorem falsy_tag_defaults_to_devel (d : Distro) (hd : d = debianBuster ∨ d = archlinux)
    (t : String) (ht : (t == "") = false) :
    tagOf (getTemplateContext d [("tag", Value.str "")]) = some (.str "devel") ∧
    tagOf (getTemplateContext d [("tag", Value.vnone)]) = some (.str "devel") ∧
    tagOf (getTemplateContext d [("tag", Value.int 0)]) = some (.str "devel") ∧
    tagOf (getTemplateContext d []) = some (.str "devel") ∧
    tagOf (getTemplateContext d [("tag", Value.str t)]) = some (.str t) := by
  rcases hd with hd | hd <;> subst hd <;> refine ⟨rfl, rfl, rfl, rfl, ?_⟩
  · simp [getTemplateContext, debianTemplateContext, baseTemplateContext, dictInsert, lookupD,
      truthy, tagOf, ht, debianBuster]
  · simp [getTemplateContext, archTemplateContext, baseTemplateContext, dictInsert, lookupD,
      truthy, tagOf, ht, archlinux]

/-- Witness for C10 at `debianBuster` and the concrete tag `"v1"`. -/
theorem falsy_tag_defaults_to_devel_witness :
    (("v1" == "") = false) ∧
    tagOf (getTemplateContext debianBuster [("tag", Value.str "")]) = some (.str "devel") ∧
    tagOf (getTemplateContext debianBuster [("tag", Value.str "v1")]) = some (.str "v1") := by
  have h := falsy_tag_defaults_to_devel debianBuster (Or.inl rfl) "v1" rfl
  exact ⟨rfl, h.1, h.2.2.2.2⟩

end DistccCC
